import Mathlib

/-!
Verification of the storage REST handlers
(`lib/apiservers/portlayer/restapi/handlers/storage_handlers.go`).

The file under verification is the adapter layer between the REST
operations and the two lookup caches (`spl.NameLookupCache` for images,
`spl.VolumeLookupCache` for volumes).  The caches, the backend drivers
(`nfs`, `vsphere`, `datastore`), and the `util` URL helpers live outside
the file; they are modelled here as oracle parameters (functions passed
to the embedded handler), so every theorem quantifies over their
behaviour.  Go's `(value, error)` returns are modelled with `Except` /
`Option`, byte slices as `String`, and Go maps as association lists
(Go map iteration order is unspecified, which no claim depends on).
-/

set_option autoImplicit false

namespace StorageHandlers

/-! ## URLs and basic data (external types `url.URL`, `spl.Volume`, `spl.Image`) -/

/-- Model of `url.URL` restricted to the fields the handlers read:
`Scheme`, `Host`, `Path` and `User.Username()`. -/
structure URL where
  scheme : String
  host : String
  path : String
  user : Option String
  deriving DecidableEq

/-- Rendering stand-in for `url.URL.String()` (external library code). -/
def URL.render (u : URL) : String :=
  u.scheme ++ "://" ++ u.host ++ u.path

/-- Model of the `Device` member of `spl.Volume`: the handlers only call
`Device.DiskPath()`, which yields a `url.URL`. -/
structure Disk where
  diskPath : URL
  deriving DecidableEq

/-- Model of `spl.Volume` restricted to the fields the handler file
reads: `ID`, `Label`, `Store`, `Info` and `Device`. -/
structure Volume where
  ID : String
  Label : String
  Store : URL
  Info : List (String × String)
  Device : Disk
  deriving DecidableEq

/-- Model of `spl.Image`: `ID`, optional `ParentLink` and `SelfLink`,
optional metadata map (`nil` vs. non-nil is significant), owning `Store`. -/
structure SplImage where
  ID : String
  ParentLink : Option URL
  SelfLink : Option URL
  Metadata : Option (List (String × String))
  Store : URL
  deriving DecidableEq

/-- Model of the swagger `models.Image`. -/
structure ModelImage where
  ID : String
  SelfLink : String
  Parent : String
  Metadata : List (String × String)
  Store : String
  deriving DecidableEq

/-- Model of the swagger `models.VolumeResponse`. -/
structure VolumeResponse where
  Driver : String
  Name : String
  Label : String
  Store : String
  Metadata : List (String × String)
  deriving DecidableEq

/-- Model of the swagger `models.VolumeRequest` (fields the handler reads). -/
structure VolumeRequest where
  Name : String
  Store : String
  Capacity : Int
  Driver : String
  Metadata : List (String × String)
  deriving DecidableEq

/-! ## Errors

The handlers never inspect error structure beyond five classifiers:
`os.IsExist`, `os.IsNotExist`, identity with the sentinel
`os.ErrNotExist`, `spl.IsErrImageInUse`, and a type assertion on
`spl.VolumeStoreNotFoundError`.  `Err` carries one constructor per
distinguishable class (the spec's checksum-mismatch, duplicate-id and
unresolved-parent kinds are separate constructors so that distinctness
of kinds is expressible), plus `other` for everything else. -/

inductive Err where
  | imageInUse (msg : String)
  /-- The `os.ErrNotExist` sentinel itself (`err == os.ErrNotExist` is
  identity, satisfied only by this value). -/
  | errNotExistSentinel
  /-- An error satisfying `os.IsNotExist` without being the sentinel
  (e.g. an `*os.PathError` wrapping it). -/
  | notExist (msg : String)
  | exist (msg : String)
  | volumeStoreNotFound (msg : String)
  | checksumMismatch (msg : String)
  | duplicateID (msg : String)
  | unresolvedParent (msg : String)
  | other (msg : String)
  deriving DecidableEq

/-- `err.Error()`.  `os.ErrNotExist.Error()` is `"file does not exist"`. -/
def Err.message : Err → String
  | .imageInUse m => m
  | .errNotExistSentinel => "file does not exist"
  | .notExist m => m
  | .exist m => m
  | .volumeStoreNotFound m => m
  | .checksumMismatch m => m
  | .duplicateID m => m
  | .unresolvedParent m => m
  | .other m => m

/-- `os.IsExist`. -/
def Err.isExist : Err → Bool
  | .exist _ => true
  | _ => false

/-- `os.IsNotExist` (true of the sentinel and of wrappers of it). -/
def Err.isNotExist : Err → Bool
  | .errNotExistSentinel => true
  | .notExist _ => true
  | _ => false

/-- `spl.IsErrImageInUse`. -/
def Err.isErrImageInUse : Err → Bool
  | .imageInUse _ => true
  | _ => false

/-- The type assertion `err.(spl.VolumeStoreNotFoundError)`. -/
def Err.isVolumeStoreNotFound : Err → Bool
  | .volumeStoreNotFound _ => true
  | _ => false

/-- The scheme constants of the handler file. -/
def nfsScheme : String := "nfs"

/-- The scheme constants of the handler file. -/
def dsScheme : String := "ds"

/-! ## Utility functions of the handler file -/

/-- `convertImage`: convert an `spl.Image` to a swagger `models.Image`.
A nil `ParentLink`/`SelfLink` yields the empty string; a nil metadata
map yields an empty map. -/
def convertImage (image : SplImage) : ModelImage :=
  { ID := image.ID
    SelfLink :=
      match image.SelfLink with
      | some u => u.render
      | none => ""
    Parent :=
      match image.ParentLink with
      | some u => u.render
      | none => ""
    Metadata :=
      match image.Metadata with
      | some m => m
      | none => []
    Store := image.Store.render }

/-- `createMetadataMap`: copy `volume.Info` into a string map
(the `[]byte` to `string` conversion is the identity in this model). -/
def createMetadataMap (volume : Volume) : List (String × String) :=
  volume.Info.map fun kv => (kv.1, kv.2)

/-- `volumeToCreateResponse`: build the `CreateVolume` success payload
from the created volume and the original request. -/
def volumeToCreateResponse (volume : Volume) (model : VolumeRequest) : VolumeResponse :=
  { Driver := model.Driver
    Name := volume.ID
    Label := volume.Label
    Store := model.Store
    Metadata := model.Metadata }

/-- `fillVolumeModel` takes a `*spl.Volume`; the pointer is modelled by
`Option Volume` and the nil dereference of `volume.Store` by the `none`
result.  `util.VolumeStoreName` is external and passed as an oracle. -/
def fillVolumeModel (volumeStoreName : URL → Except Err String) :
    Option Volume → Option (Except Err VolumeResponse)
  | none => none
  | some volume =>
    some <|
      match volumeStoreName volume.Store with
      | .error e => .error e
      | .ok storeName =>
        .ok { Name := volume.ID
              Driver := "vsphere"
              Store := storeName
              Metadata := createMetadataMap volume
              Label := volume.Label }

/-! ## Configure and configureVolumeStores -/

/-- Model of `nfs.NewMount(dsurl, "vic", uid, gid)`'s argument tuple. -/
structure NfsMount where
  target : URL
  hostname : String
  uid : Nat
  gid : Nat
  deriving DecidableEq

/-- `nfs.DefaultUID` (external constant; its value is irrelevant to
every claim, only that it is used when no username is supplied). -/
def nfsDefaultUID : Int := 1000

/-- The external calls `configureVolumeStores` makes, as oracles.
`σ` is the opaque `spl.VolumeStorer` type, `δ` the opaque
`datastore.Helper` type. -/
structure VolumeStoreOracles (σ δ : Type) where
  atoi : String → Except Err Int
  nfsNewVolumeStore : String → NfsMount → Except Err σ
  dsNewHelperFromURL : URL → Except Err δ
  vsNewVolumeStore : String → δ → Except Err σ
  addStore : String → σ → Except Err Unit

/-- The body of the `configureVolumeStores` loop for one
`(name, dsurl)` entry, up to (not including) the `AddStore` call:
select a backend constructor by `dsurl.Scheme`.  The `uint32` casts of
the parsed uid wrap modulo `2^32` as in Go. -/
def resolveVolumeStore {σ δ : Type} (o : VolumeStoreOracles σ δ)
    (name : String) (dsurl : URL) : Except Err σ :=
  if dsurl.scheme = nfsScheme then
    let uidRes : Except Err Int :=
      match dsurl.user with
      | some username =>
        if username ≠ "" then o.atoi username else .ok nfsDefaultUID
      | none => .ok nfsDefaultUID
    match uidRes with
    | .error e => .error e
    | .ok uid =>
      let u32 : Nat := (uid % (2 ^ 32 : Int)).toNat
      o.nfsNewVolumeStore name { target := dsurl, hostname := "vic", uid := u32, gid := u32 }
  else if dsurl.scheme = dsScheme then
    match o.dsNewHelperFromURL dsurl with
    | .error e => .error (.other ("cannot find datastores: " ++ e.message))
    | .ok helper =>
      match o.vsNewVolumeStore name helper with
      | .error e => .error (.other ("cannot instantiate the volume store: " ++ e.message))
      | .ok vs => .ok vs
  else
    .error (.other ("unknown scheme for " ++ dsurl.render))

/-- `configureVolumeStores`: iterate the configured locations, resolve
each to a backend store and register it with `AddStore`.  Returns the
registrations performed (in order) together with the error that stopped
the loop, if any.  `spl.Config.VolumeLocations` is a Go map; it is
modelled as an association list since no claim depends on order. -/
def configureVolumeStores {σ δ : Type} (o : VolumeStoreOracles σ δ) :
    List (String × URL) → List (String × σ) × Option Err
  | [] => ([], none)
  | (name, dsurl) :: rest =>
    match resolveVolumeStore o name dsurl with
    | .error e => ([], some e)
    | .ok vs =>
      match o.addStore name vs with
      | .error e => ([], some (.other ("volume addition error " ++ e.message)))
      | .ok _ =>
        let tail := configureVolumeStores o rest
        ((name, vs) :: tail.1, tail.2)

/-- Model of `spl.NameLookupCache` as produced by `spl.NewLookupCache`:
a cache wrapping one backend image store (`κ` is the opaque
`*vsphere.ImageStore`). -/
structure NameLookupCache (κ : Type) where
  DataStore : κ
  deriving DecidableEq

/-- `spl.NewLookupCache`. -/
def NewLookupCache {κ : Type} (ds : κ) : NameLookupCache κ :=
  { DataStore := ds }

/-- Outcome of `Configure`: either a `log.Panicf` (process abort) or the
configured image cache plus the volume-store registrations. -/
inductive ConfigureOutcome (κ σ : Type) where
  | panicked (msg : String)
  | ok (imageCache : NameLookupCache κ) (volumeStores : List (String × σ))
  deriving DecidableEq

/-- `Configure` (the storage-layer portion: image store instantiation
and volume store configuration; the trailing handler-function
assignments have no observable state here).  `newImageStore` is the
external `vsphere.NewImageStore`. -/
def Configure {κ σ δ : Type} (newImageStore : URL → Except Err κ)
    (o : VolumeStoreOracles σ δ) (imageStores : List URL)
    (volumeLocations : List (String × URL)) : ConfigureOutcome κ σ :=
  match imageStores with
  | [] => .panicked "No image stores provided; unable to instantiate storage layer"
  | imageStoreURL :: _ =>
    match newImageStore imageStoreURL with
    | .error e => .panicked ("Cannot instantiate storage layer: " ++ e.message)
    | .ok ds =>
      match configureVolumeStores o volumeLocations with
      | (_, some e) => .panicked ("Cannot instantiate volume stores: " ++ e.message)
      | (regs, none) => .ok (NewLookupCache ds) regs

/-! ## CreateImageStore -/

/-- Responders of `CreateImageStore`: `Conflict` (409, fixed message),
`Default(500)`, `Created` with the store URL. -/
inductive CreateImageStoreOutcome where
  | conflict (msg : String)
  | defaultErr (code : Nat) (msg : String)
  | created (storeURL : String)
  deriving DecidableEq

/-- `CreateImageStore`: delegate to the image cache, map an
`os.IsExist` error to 409, any other error to 500, success to 201 with
the new store URL. -/
def CreateImageStore (cacheCreateImageStore : String → Except Err URL)
    (name : String) : CreateImageStoreOutcome :=
  match cacheCreateImageStore name with
  | .error e =>
    if e.isExist then
      .conflict "An image store with that name already exists"
    else
      .defaultErr 500 e.message
  | .ok url => .created url.render

/-! ## DeleteImage -/

/-- Responders of `DeleteImage`: `ferr(err, code)` or `OK` with the
deleted images. -/
inductive DeleteImageOutcome where
  | errResp (code : Nat) (msg : String)
  | ok (images : List ModelImage)
  deriving DecidableEq

/-- The keep-node parse loop of `DeleteImage`: `url.Parse` each entry,
returning the first failure.  Each entry's parse result is supplied. -/
def parseKeepNodes : List (Except Err URL) → Except Err (List URL)
  | [] => .ok []
  | .error e :: _ => .error e
  | .ok u :: rest =>
    match parseKeepNodes rest with
    | .error e => .error e
    | .ok us => .ok (u :: us)

/-- `DeleteImage`: build the image URL, parse it and the keep nodes
(failures give 500), call `DeleteBranch` on the cache, and map its
error through `IsErrImageInUse` (423 Locked), `os.IsNotExist` (404),
default (500); on success convert the deleted images in order. -/
def DeleteImage (imageURLRes : Except Err URL)
    (parseImage : URL → Except Err SplImage)
    (keepNodeParses : List (Except Err URL))
    (deleteBranch : SplImage → List URL → Except Err (List SplImage)) :
    DeleteImageOutcome :=
  match imageURLRes with
  | .error e => .errResp 500 e.message
  | .ok imageURL =>
    match parseImage imageURL with
    | .error e => .errResp 500 e.message
    | .ok image =>
      match parseKeepNodes keepNodeParses with
      | .error e => .errResp 500 e.message
      | .ok keepNodes =>
        match deleteBranch image keepNodes with
        | .error e =>
          if e.isErrImageInUse then .errResp 423 e.message
          else if e.isNotExist then .errResp 404 e.message
          else .errResp 500 e.message
        | .ok deletedImages => .ok (deletedImages.map convertImage)

/-! ## WriteImage -/

/-- Responders of `WriteImage`: `Default(500)` or `Created`. -/
inductive WriteImageOutcome where
  | defaultErr (code : Nat) (msg : String)
  | created (image : ModelImage)
  deriving DecidableEq

/-- The metadata map `WriteImage` passes to the cache: a one-entry map
when both `Metadatakey` and `Metadataval` are present, otherwise nil. -/
def writeImageMeta (metadatakey metadataval : Option String) :
    Option (List (String × String)) :=
  match metadatakey, metadataval with
  | some k, some v => some [(k, v)]
  | _, _ => none

/-- `WriteImage`: resolve the store URL (failure: 500), build the
parent stub and the metadata map, call the cache's `WriteImage`
(any failure: 500), convert the result (201).  The cache call is the
oracle `cacheWrite parent imageID meta sum`. -/
def WriteImage (imageStoreNameToURL : String → Except Err URL)
    (cacheWrite : SplImage → String → Option (List (String × String)) → String →
      Except Err SplImage)
    (storeName parentID imageID : String)
    (metadatakey metadataval : Option String) (sum : String) :
    WriteImageOutcome :=
  match imageStoreNameToURL storeName with
  | .error e => .defaultErr 500 e.message
  | .ok u =>
    let parent : SplImage :=
      { ID := parentID, ParentLink := none, SelfLink := none, Metadata := none, Store := u }
    let meta := writeImageMeta metadatakey metadataval
    match cacheWrite parent imageID meta sum with
    | .error e => .defaultErr 500 e.message
    | .ok image => .created (convertImage image)

/-! ## CreateVolume -/

/-- Responders of `CreateVolume`. -/
inductive CreateVolumeOutcome where
  | internalError (msg : String)
  | conflict (msg : String)
  | notFound (msg : String)
  | created (resp : VolumeResponse)
  deriving DecidableEq

/-- The capacity argument `CreateVolume` passes to `VolumeCreate`:
`capacity := 1024` when the requested capacity is negative, otherwise
`uint64(capacity)`; the call passes `capacity*1024` in `uint64`
arithmetic (wrapping modulo `2^64`). -/
def createVolumeCapacityArg (c : Int) : Nat :=
  let capacity : Nat := if c < 0 then 1024 else c.toNat
  capacity * 1024 % 2 ^ 64

/-- The `byteMap` copy loop of `CreateVolume` (`string` to `[]byte` is
the identity in this model). -/
def toByteMap (m : List (String × String)) : List (String × String) :=
  m.map fun kv => (kv.1, kv.2)

/-- `CreateVolume`: resolve the store name to a URL (failure: 500),
copy the metadata, compute the scaled capacity, call the cache's
`VolumeCreate`; an `os.IsExist` error gives 409, a
`VolumeStoreNotFoundError` 404, any other error 500; success gives 201
with `volumeToCreateResponse`. -/
def CreateVolume (volumeStoreNameToURL : String → Except Err URL)
    (volumeCreate : String → URL → Nat → List (String × String) → Except Err Volume)
    (req : VolumeRequest) : CreateVolumeOutcome :=
  match volumeStoreNameToURL req.Store with
  | .error e => .internalError e.message
  | .ok storeURL =>
    let byteMap := toByteMap req.Metadata
    match volumeCreate req.Name storeURL (createVolumeCapacityArg req.Capacity) byteMap with
    | .error e =>
      if e.isExist then .conflict e.message
      else if e.isVolumeStoreNotFound then .notFound e.message
      else .internalError e.message
    | .ok volume => .created (volumeToCreateResponse volume req)

/-! ## GetVolume -/

/-- Responders of `GetVolume`, plus `nilDeref` for the nil-pointer
dereference inside `fillVolumeModel` (a runtime panic, not a
responder). -/
inductive GetVolumeOutcome where
  | notFound (msg : String)
  | internalError (msg : String)
  | ok (resp : VolumeResponse)
  | nilDeref
  deriving DecidableEq

/-- `GetVolume`: call the cache's `VolumeGet` (Go `(data, err)` pair);
only when `err == os.ErrNotExist` (identity with the sentinel) respond
404; otherwise proceed to `fillVolumeModel data` — dereferencing
`data`, a 500 on a `VolumeStoreName` failure, 200 on success. -/
def GetVolume (volumeStoreName : URL → Except Err String)
    (volumeGetResult : Option Volume × Option Err) : GetVolumeOutcome :=
  if volumeGetResult.2 = some Err.errNotExistSentinel then
    .notFound Err.errNotExistSentinel.message
  else
    match fillVolumeModel volumeStoreName volumeGetResult.1 with
    | none => .nilDeref
    | some (.error e) => .internalError e.message
    | some (.ok resp) => .ok resp

/-! ## VolumeJoin -/

/-- Responders of `VolumeJoin`. -/
inductive VolumeJoinOutcome where
  | internalError (msg : String)
  | ok (handle : String)
  deriving DecidableEq

/-- The shared error/success tail of `VolumeJoin` after the scheme
switch: any error responds 500, success responds OK with the handle. -/
def joinRespond : Except Err String → VolumeJoinOutcome
  | .error e => .internalError e.message
  | .ok h => .ok h

/-- `VolumeJoin`: get the volume from the cache (failure: 500), then
switch on `volume.Device.DiskPath().Scheme`: `"nfs"` calls
`nfs.VolumeJoin`, `"ds"` calls `vsphere.VolumeJoin`, anything else sets
an unknown-scheme error; finally any error responds 500 and success
responds OK with the handle.  The two backend join routines are the
oracles `nfsVolumeJoin`/`vsVolumeJoin` applied to
`(handle, volume, mountPath, flags)`. -/
def VolumeJoin (volumeGet : String → Except Err Volume)
    (nfsVolumeJoin vsVolumeJoin :
      String → Volume → String → List (String × String) → Except Err String)
    (name handle mountPath : String) (flags : List (String × String)) :
    VolumeJoinOutcome :=
  match volumeGet name with
  | .error e => .internalError e.message
  | .ok volume =>
    let joined : Except Err String :=
      if volume.Device.diskPath.scheme = nfsScheme then
        nfsVolumeJoin handle volume mountPath flags
      else if volume.Device.diskPath.scheme = dsScheme then
        vsVolumeJoin handle volume mountPath flags
      else
        .error (.other ("unknown scheme (" ++ volume.Device.diskPath.scheme ++
          ") for Volume (" ++ volume.ID ++ ")"))
    joinRespond joined

/-- An injective-on-purpose rendering of an optional metadata map,
used only to observe through a recording oracle which map a handler
passed to the cache. -/
def renderMeta : Option (List (String × String)) → String
  | none => "nil"
  | some m => "map:" ++ String.intercalate "," (m.map fun kv => kv.1 ++ "=" ++ kv.2)

/-! ## Sample data (used by the closed witness theorems) -/

/-- A sample NFS-scheme location URL. -/
def sampleURLNfs : URL :=
  { scheme := "nfs", host := "nfshost", path := "/exports/vols", user := none }

/-- A sample datastore-scheme location URL. -/
def sampleURLDs : URL :=
  { scheme := "ds", host := "dshost", path := "/vols", user := none }

/-- A sample URL with an unsupported scheme. -/
def sampleURLBad : URL :=
  { scheme := "zfs", host := "zhost", path := "/z", user := none }

/-- A sample volume whose disk path has the NFS scheme. -/
def sampleVolumeNfs : Volume :=
  { ID := "vol1", Label := "lbl", Store := sampleURLNfs, Info := [("a", "b")],
    Device := { diskPath := sampleURLNfs } }

/-- A sample volume whose disk path has the datastore scheme. -/
def sampleVolumeDs : Volume :=
  { ID := "vol2", Label := "lbl2", Store := sampleURLDs, Info := [],
    Device := { diskPath := sampleURLDs } }

/-- A sample volume whose disk path has an unsupported scheme. -/
def sampleVolumeBad : Volume :=
  { ID := "vol3", Label := "lbl3", Store := sampleURLDs, Info := [],
    Device := { diskPath := sampleURLBad } }

/-- A sample image. -/
def sampleImage : SplImage :=
  { ID := "img1", ParentLink := none, SelfLink := some sampleURLDs,
    Metadata := some [("k", "v")], Store := sampleURLDs }

/-- Sample volume-store oracles over `Nat` stand-ins for the opaque
backend types. -/
def sampleOracles : VolumeStoreOracles Nat Nat :=
  { atoi := fun _ => .ok 0
    nfsNewVolumeStore := fun _ _ => .ok 1
    dsNewHelperFromURL := fun _ => .ok 2
    vsNewVolumeStore := fun _ _ => .ok 3
    addStore := fun _ _ => .ok () }

/-- A sample volume-creation request with capacity 5. -/
def sampleRequest : VolumeRequest :=
  { Name := "vol1", Store := "store1", Capacity := 5, Driver := "vsphere",
    Metadata := [("m", "n")] }

/-! ## Claims -/

/-- Claim C1: for every volume successfully retrieved in `VolumeJoin`,
the handler dispatches on `volume.Device.DiskPath().Scheme`: scheme
`"nfs"` hands the join to the NFS routine, scheme `"ds"` to the
datastore routine, and any other scheme yields an error response (the
same response whatever the two backend routines would do — neither is
called). -/
theorem volumeJoin_dispatches_by_scheme
    (volumeGet : String → Except Err Volume)
    (nfsVolumeJoin vsVolumeJoin nj vj :
      String → Volume → String → List (String × String) → Except Err String)
    (name handle mountPath : String) (flags : List (String × String))
    (volume : Volume) (hget : volumeGet name = .ok volume) :
    (volume.Device.diskPath.scheme = nfsScheme →
      VolumeJoin volumeGet nfsVolumeJoin vsVolumeJoin name handle mountPath flags =
        joinRespond (nfsVolumeJoin handle volume mountPath flags)) ∧
    (volume.Device.diskPath.scheme = dsScheme →
      VolumeJoin volumeGet nfsVolumeJoin vsVolumeJoin name handle mountPath flags =
        joinRespond (vsVolumeJoin handle volume mountPath flags)) ∧
    (volume.Device.diskPath.scheme ≠ nfsScheme →
      volume.Device.diskPath.scheme ≠ dsScheme →
      VolumeJoin volumeGet nfsVolumeJoin vsVolumeJoin name handle mountPath flags =
        VolumeJoin volumeGet nj vj name handle mountPath flags ∧
      ∃ m, VolumeJoin volumeGet nfsVolumeJoin vsVolumeJoin name handle mountPath flags =
        .internalError m) := by
  refine ⟨fun h => ?_, fun h => ?_, fun h1 h2 => ⟨?_, ?_⟩⟩
  · simp [VolumeJoin, hget, h, nfsScheme, dsScheme]
  · simp [VolumeJoin, hget, h, nfsScheme, dsScheme]
  · simp [VolumeJoin, hget, h1, h2]
  · exact ⟨(Err.other ("unknown scheme (" ++ volume.Device.diskPath.scheme ++
        ") for Volume (" ++ volume.ID ++ ")")).message,
      by simp [VolumeJoin, hget, h1, h2, joinRespond]⟩

/-- Witness for C1 at the three sample volumes (NFS scheme, datastore
scheme, unsupported scheme). -/
theorem volumeJoin_dispatches_by_scheme_witness :
    (VolumeJoin (fun _ => .ok sampleVolumeNfs) (fun h _ _ _ => .ok (h ++ "+nfs"))
        (fun h _ _ _ => .ok (h ++ "+ds")) "vol1" "H" "/mnt" [] =
      joinRespond (.ok ("H" ++ "+nfs"))) ∧
    (VolumeJoin (fun _ => .ok sampleVolumeDs) (fun h _ _ _ => .ok (h ++ "+nfs"))
        (fun h _ _ _ => .ok (h ++ "+ds")) "vol2" "H" "/mnt" [] =
      joinRespond (.ok ("H" ++ "+ds"))) ∧
    ∃ m, VolumeJoin (fun _ => .ok sampleVolumeBad) (fun h _ _ _ => .ok (h ++ "+nfs"))
        (fun h _ _ _ => .ok (h ++ "+ds")) "vol3" "H" "/mnt" [] = .internalError m :=
  ⟨(volumeJoin_dispatches_by_scheme (fun _ => .ok sampleVolumeNfs) _ _
      (fun h _ _ _ => .ok (h ++ "+nfs")) (fun h _ _ _ => .ok (h ++ "+ds"))
      "vol1" "H" "/mnt" [] sampleVolumeNfs rfl).1 rfl,
   (volumeJoin_dispatches_by_scheme (fun _ => .ok sampleVolumeDs) _ _
      (fun h _ _ _ => .ok (h ++ "+nfs")) (fun h _ _ _ => .ok (h ++ "+ds"))
      "vol2" "H" "/mnt" [] sampleVolumeDs rfl).2.1 rfl,
   ((volumeJoin_dispatches_by_scheme (fun _ => .ok sampleVolumeBad)
      (fun h _ _ _ => .ok (h ++ "+nfs")) (fun h _ _ _ => .ok (h ++ "+ds"))
      (fun h _ _ _ => .ok (h ++ "+nfs")) (fun h _ _ _ => .ok (h ++ "+ds"))
      "vol3" "H" "/mnt" [] sampleVolumeBad rfl).2.2 (by decide) (by decide)).2⟩

/-- Claim C2: in `DeleteImage`, once the image URL, the image and the
keep nodes have parsed, an image-in-use error from the cache's
`DeleteBranch` yields the 423 (Locked) response, an `os.IsNotExist`
error yields 404, and success yields exactly the deleted images the
cache reported, converted in the same order. -/
theorem deleteImage_error_mapping
    (imageURL : URL) (parseImage : URL → Except Err SplImage)
    (keepNodeParses : List (Except Err URL))
    (deleteBranch : SplImage → List URL → Except Err (List SplImage))
    (image : SplImage) (keepNodes : List URL)
    (hparse : parseImage imageURL = .ok image)
    (hkeep : parseKeepNodes keepNodeParses = .ok keepNodes) :
    (∀ e, deleteBranch image keepNodes = .error e → e.isErrImageInUse = true →
      DeleteImage (.ok imageURL) parseImage keepNodeParses deleteBranch =
        .errResp 423 e.message) ∧
    (∀ e, deleteBranch image keepNodes = .error e → e.isNotExist = true →
      DeleteImage (.ok imageURL) parseImage keepNodeParses deleteBranch =
        .errResp 404 e.message) ∧
    (∀ deletedImages, deleteBranch image keepNodes = .ok deletedImages →
      DeleteImage (.ok imageURL) parseImage keepNodeParses deleteBranch =
        .ok (deletedImages.map convertImage)) := by
  refine ⟨fun e hdel hiu => ?_, fun e hdel hne => ?_, fun deletedImages hdel => ?_⟩
  · simp [DeleteImage, hparse, hkeep, hdel, hiu]
  · have hiu : e.isErrImageInUse = false := by
      cases e <;> simp_all [Err.isErrImageInUse, Err.isNotExist]
    simp [DeleteImage, hparse, hkeep, hdel, hiu, hne]
  · simp [DeleteImage, hparse, hkeep, hdel]

/-- Witness for C2: the in-use, not-exist and success branches at
concrete inputs. -/
theorem deleteImage_error_mapping_witness :
    (DeleteImage (.ok sampleURLDs) (fun _ => .ok sampleImage) []
        (fun _ _ => .error (.imageInUse "busy")) = .errResp 423 "busy") ∧
    (DeleteImage (.ok sampleURLDs) (fun _ => .ok sampleImage) []
        (fun _ _ => .error (.notExist "gone")) = .errResp 404 "gone") ∧
    (DeleteImage (.ok sampleURLDs) (fun _ => .ok sampleImage) []
        (fun _ _ => .ok [sampleImage]) = .ok ([sampleImage].map convertImage)) :=
  ⟨(deleteImage_error_mapping sampleURLDs (fun _ => .ok sampleImage) []
      (fun _ _ => .error (.imageInUse "busy")) sampleImage [] rfl rfl).1
      (.imageInUse "busy") rfl rfl,
   (deleteImage_error_mapping sampleURLDs (fun _ => .ok sampleImage) []
      (fun _ _ => .error (.notExist "gone")) sampleImage [] rfl rfl).2.1
      (.notExist "gone") rfl rfl,
   (deleteImage_error_mapping sampleURLDs (fun _ => .ok sampleImage) []
      (fun _ _ => .ok [sampleImage]) sampleImage [] rfl rfl).2.2
      [sampleImage] rfl⟩

/-- Counterexample to claim C3 as stated: a checksum-mismatch failure
and a duplicate-id failure of the cache's `WriteImage` are different
error kinds, yet the handler's responses are identical (both are the
`Default` responder with code 500), so failures of different kinds are
not distinguishable by status signal. -/
theorem writeImage_kinds_same_response :
    (WriteImage (fun _ => .ok sampleURLDs)
        (fun _ _ _ _ => .error (.checksumMismatch "boom"))
        "store1" "parent" "img1" none none "sum"
      = WriteImage (fun _ => .ok sampleURLDs)
        (fun _ _ _ _ => .error (.duplicateID "boom"))
        "store1" "parent" "img1" none none "sum") ∧
    Err.checksumMismatch "boom" ≠ Err.duplicateID "boom" :=
  ⟨rfl, fun h => Err.noConfusion h⟩

/-- Claim C3 (amended): `WriteImage` maps every failure — of the store
name resolution or of the cache call, whatever its kind — to the one
`Default` responder with status 500 carrying the error's message;
error kinds are not given distinct status signals. -/
theorem writeImage_failures_all_internal_error
    (u : URL) (e : Err) (storeName parentID imageID : String)
    (metadatakey metadataval : Option String) (sum : String)
    (cacheWrite : SplImage → String → Option (List (String × String)) → String →
      Except Err SplImage) :
    WriteImage (fun _ => .ok u) (fun _ _ _ _ => .error e)
        storeName parentID imageID metadatakey metadataval sum
      = .defaultErr 500 e.message ∧
    WriteImage (fun _ => .error e) cacheWrite
        storeName parentID imageID metadatakey metadataval sum
      = .defaultErr 500 e.message :=
  ⟨rfl, rfl⟩

/-- Helper: if resolving one configured location fails, the
`configureVolumeStores` loop over any list containing that location
stops with an error. -/
theorem configureVolumeStores_fails_of_resolve_error {σ δ : Type}
    (o : VolumeStoreOracles σ δ) (name : String) (dsurl : URL) (e : Err)
    (hres : resolveVolumeStore o name dsurl = .error e) :
    ∀ locs : List (String × URL), (name, dsurl) ∈ locs →
      (configureVolumeStores o locs).2.isSome := by
  intro locs
  induction locs with
  | nil => simp
  | cons head rest ih =>
    intro hmem
    obtain ⟨n, u⟩ := head
    rcases List.mem_cons.mp hmem with heq | hmem'
    · obtain ⟨rfl, rfl⟩ := Prod.mk.injEq .. ▸ heq
      simp [configureVolumeStores, hres]
    · cases hr : resolveVolumeStore o n u with
      | error e' => simp [configureVolumeStores, hr]
      | ok vs =>
        cases ha : o.addStore n vs with
        | error e' => simp [configureVolumeStores, hr, ha]
        | ok u0 =>
          simpa [configureVolumeStores, hr, ha] using ih hmem'

/-- Claim C4: `configureVolumeStores` selects the backend constructor
for each configured location by the location URL's scheme — `"nfs"`
reaches `nfs.NewVolumeStore` (on a mount built from the URL), `"ds"`
reaches `datastore.NewHelperFromURL` followed by
`vsphere.NewVolumeStore` — a successfully constructed store is
registered via `AddStore` under its configured name, and any location
with another scheme makes configuration fail with an error. -/
theorem configureVolumeStores_scheme_dispatch {σ δ : Type}
    (o : VolumeStoreOracles σ δ) (name : String) (dsurl : URL) :
    (∀ vs, dsurl.scheme = nfsScheme → resolveVolumeStore o name dsurl = .ok vs →
      ∃ u32, o.nfsNewVolumeStore name
          { target := dsurl, hostname := "vic", uid := u32, gid := u32 } = .ok vs) ∧
    (∀ vs, dsurl.scheme = dsScheme → resolveVolumeStore o name dsurl = .ok vs →
      ∃ helper, o.dsNewHelperFromURL dsurl = .ok helper ∧
        o.vsNewVolumeStore name helper = .ok vs) ∧
    (dsurl.scheme ≠ nfsScheme → dsurl.scheme ≠ dsScheme →
      resolveVolumeStore o name dsurl =
        .error (.other ("unknown scheme for " ++ dsurl.render)) ∧
      ∀ locs, (name, dsurl) ∈ locs → (configureVolumeStores o locs).2.isSome) ∧
    (∀ vs rest, resolveVolumeStore o name dsurl = .ok vs → o.addStore name vs = .ok () →
      (name, vs) ∈ (configureVolumeStores o ((name, dsurl) :: rest)).1) := by
  refine ⟨fun vs h hok => ?_, fun vs h hok => ?_, fun h1 h2 => ⟨?_, ?_⟩,
    fun vs rest hres hadd => ?_⟩
  · simp only [resolveVolumeStore, h, if_pos rfl] at hok
    cases hu : dsurl.user with
    | none =>
      simp [hu] at hok
      exact ⟨_, hok⟩
    | some username =>
      by_cases husr : username = ""
      · simp [hu, husr] at hok
        exact ⟨_, hok⟩
      · cases hat : o.atoi username with
        | error e => simp [hu, husr, hat] at hok
        | ok uid =>
          simp [hu, husr, hat] at hok
          exact ⟨_, hok⟩
  · have hns : ¬dsurl.scheme = nfsScheme := by
      rw [h]; decide
    unfold resolveVolumeStore at hok
    rw [if_neg hns, if_pos h] at hok
    cases hh : o.dsNewHelperFromURL dsurl with
    | error e =>
      simp [hh] at hok
    | ok helper =>
      simp only [hh] at hok
      cases hv : o.vsNewVolumeStore name helper with
      | error e =>
        simp [hv] at hok
      | ok vs' =>
        simp only [hv] at hok
        simp at hok
        exact ⟨helper, rfl, by rw [hv, hok]⟩
  · unfold resolveVolumeStore
    rw [if_neg h1, if_neg h2]
  · exact configureVolumeStores_fails_of_resolve_error o name dsurl
      (.other ("unknown scheme for " ++ dsurl.render))
      (by unfold resolveVolumeStore; rw [if_neg h1, if_neg h2])
  · simp [configureVolumeStores, hres, hadd]

/-- Witness for C4: the sample oracles at an NFS location, a datastore
location, an unsupported-scheme location, and a registration. -/
theorem configureVolumeStores_scheme_dispatch_witness :
    (∃ u32, sampleOracles.nfsNewVolumeStore "s1"
        { target := sampleURLNfs, hostname := "vic", uid := u32, gid := u32 } = .ok 1) ∧
    (∃ helper, sampleOracles.dsNewHelperFromURL sampleURLDs = .ok helper ∧
        sampleOracles.vsNewVolumeStore "s2" helper = .ok 3) ∧
    (configureVolumeStores sampleOracles [("s3", sampleURLBad)]).2.isSome ∧
    ("s1", 1) ∈ (configureVolumeStores sampleOracles [("s1", sampleURLNfs)]).1 :=
  ⟨(configureVolumeStores_scheme_dispatch sampleOracles "s1" sampleURLNfs).1 1 rfl rfl,
   (configureVolumeStores_scheme_dispatch sampleOracles "s2" sampleURLDs).2.1 3 rfl rfl,
   ((configureVolumeStores_scheme_dispatch sampleOracles "s3" sampleURLBad).2.2.1
      (by decide) (by decide)).2 [("s3", sampleURLBad)] (by simp),
   (configureVolumeStores_scheme_dispatch sampleOracles "s1" sampleURLNfs).2.2.2
      1 [] rfl rfl⟩

/-- Claim C5: `Configure` uses only the first configured image-store
location — the outcome is unchanged by whatever follows the head of
the list — and the image cache it builds wraps the backend
instantiated from that first location. -/
theorem configure_uses_first_image_store {κ σ δ : Type}
    (newImageStore : URL → Except Err κ) (o : VolumeStoreOracles σ δ)
    (first : URL) (rest rest' : List URL)
    (volumeLocations : List (String × URL)) :
    Configure newImageStore o (first :: rest) volumeLocations =
      Configure newImageStore o (first :: rest') volumeLocations ∧
    (∀ ds, newImageStore first = .ok ds →
      ∀ imageCache regs,
        Configure newImageStore o (first :: rest) volumeLocations = .ok imageCache regs →
        imageCache = NewLookupCache ds) := by
  refine ⟨rfl, fun ds hds imageCache regs hcfg => ?_⟩
  simp only [Configure, hds] at hcfg
  cases hvs : configureVolumeStores o volumeLocations with
  | mk regs' err =>
    cases err with
    | none =>
      rw [hvs] at hcfg
      exact (ConfigureOutcome.ok.injEq .. ▸ hcfg).1.symm
    | some e =>
      rw [hvs] at hcfg
      exact absurd hcfg (by simp)

/-- Witness for C5: with two configured image-store locations the
outcome equals the outcome for the first alone, and the cache wraps
the backend built from the first location. -/
theorem configure_uses_first_image_store_witness :
    Configure (fun _ => .ok (7 : Nat)) sampleOracles [sampleURLDs, sampleURLNfs] [] =
      Configure (fun _ => .ok (7 : Nat)) sampleOracles [sampleURLDs] [] ∧
    NewLookupCache (7 : Nat) = NewLookupCache 7 :=
  ⟨(configure_uses_first_image_store (fun _ => .ok (7 : Nat)) sampleOracles
      sampleURLDs [sampleURLNfs] [] []).1,
   (configure_uses_first_image_store (fun _ => .ok (7 : Nat)) sampleOracles
      sampleURLDs [sampleURLNfs] [] []).2 7 rfl (NewLookupCache 7) [] rfl⟩

/-- Claim C6: in `CreateVolume`, once the store name has resolved, an
`os.IsExist` error from the cache's `VolumeCreate` yields the 409
(Conflict) response, a `VolumeStoreNotFoundError` yields 404, any
other error yields 500, and success yields the Created response whose
`Name` is the volume's ID and whose `Label` is the volume's label. -/
theorem createVolume_error_mapping
    (volumeStoreNameToURL : String → Except Err URL)
    (volumeCreate : String → URL → Nat → List (String × String) → Except Err Volume)
    (req : VolumeRequest) (storeURL : URL)
    (hurl : volumeStoreNameToURL req.Store = .ok storeURL) :
    (∀ e, volumeCreate req.Name storeURL (createVolumeCapacityArg req.Capacity)
        (toByteMap req.Metadata) = .error e →
      (e.isExist = true →
        CreateVolume volumeStoreNameToURL volumeCreate req = .conflict e.message) ∧
      (e.isVolumeStoreNotFound = true →
        CreateVolume volumeStoreNameToURL volumeCreate req = .notFound e.message) ∧
      (e.isExist = false → e.isVolumeStoreNotFound = false →
        CreateVolume volumeStoreNameToURL volumeCreate req = .internalError e.message)) ∧
    (∀ volume, volumeCreate req.Name storeURL (createVolumeCapacityArg req.Capacity)
        (toByteMap req.Metadata) = .ok volume →
      CreateVolume volumeStoreNameToURL volumeCreate req =
        .created (volumeToCreateResponse volume req) ∧
      (volumeToCreateResponse volume req).Name = volume.ID ∧
      (volumeToCreateResponse volume req).Label = volume.Label) := by
  refine ⟨fun e hcv => ⟨fun hex => ?_, fun hnf => ?_, fun hex hnf => ?_⟩,
    fun volume hcv => ⟨?_, rfl, rfl⟩⟩
  · simp [CreateVolume, hurl, hcv, hex]
  · have hex : e.isExist = false := by
      cases e <;> simp_all [Err.isExist, Err.isVolumeStoreNotFound]
    simp [CreateVolume, hurl, hcv, hex, hnf]
  · simp [CreateVolume, hurl, hcv, hex, hnf]
  · simp [CreateVolume, hurl, hcv]

/-- Witness for C6: the conflict, not-found, internal-error and
success branches at concrete inputs. -/
theorem createVolume_error_mapping_witness :
    (CreateVolume (fun _ => .ok sampleURLDs) (fun _ _ _ _ => .error (.exist "dup"))
        sampleRequest = .conflict "dup") ∧
    (CreateVolume (fun _ => .ok sampleURLDs)
        (fun _ _ _ _ => .error (.volumeStoreNotFound "nostore")) sampleRequest =
      .notFound "nostore") ∧
    (CreateVolume (fun _ => .ok sampleURLDs) (fun _ _ _ _ => .error (.other "bad"))
        sampleRequest = .internalError "bad") ∧
    (CreateVolume (fun _ => .ok sampleURLDs) (fun _ _ _ _ => .ok sampleVolumeDs)
        sampleRequest = .created (volumeToCreateResponse sampleVolumeDs sampleRequest)) :=
  ⟨((createVolume_error_mapping (fun _ => .ok sampleURLDs)
      (fun _ _ _ _ => .error (.exist "dup")) sampleRequest sampleURLDs rfl).1
      (.exist "dup") rfl).1 rfl,
   ((createVolume_error_mapping (fun _ => .ok sampleURLDs)
      (fun _ _ _ _ => .error (.volumeStoreNotFound "nostore")) sampleRequest
      sampleURLDs rfl).1 (.volumeStoreNotFound "nostore") rfl).2.1 rfl,
   ((createVolume_error_mapping (fun _ => .ok sampleURLDs)
      (fun _ _ _ _ => .error (.other "bad")) sampleRequest sampleURLDs rfl).1
      (.other "bad") rfl).2.2 rfl rfl,
   ((createVolume_error_mapping (fun _ => .ok sampleURLDs)
      (fun _ _ _ _ => .ok sampleVolumeDs) sampleRequest sampleURLDs rfl).2
      sampleVolumeDs rfl).1⟩

/-- Claim C7: in `CreateImageStore`, an `os.IsExist` error from the
image cache yields the 409 (Conflict) "already exists" response,
success yields the Created response carrying the new store's URL, and
any other error yields the `Default` responder with status 500. -/
theorem createImageStore_error_mapping
    (cacheCreateImageStore : String → Except Err URL) (name : String) :
    (∀ e, cacheCreateImageStore name = .error e → e.isExist = true →
      CreateImageStore cacheCreateImageStore name =
        .conflict "An image store with that name already exists") ∧
    (∀ u, cacheCreateImageStore name = .ok u →
      CreateImageStore cacheCreateImageStore name = .created u.render) ∧
    (∀ e, cacheCreateImageStore name = .error e → e.isExist = false →
      CreateImageStore cacheCreateImageStore name = .defaultErr 500 e.message) := by
  refine ⟨fun e hc hex => ?_, fun u hc => ?_, fun e hc hex => ?_⟩
  · simp [CreateImageStore, hc, hex]
  · simp [CreateImageStore, hc]
  · simp [CreateImageStore, hc, hex]

/-- Witness for C7: the conflict, success and internal-error branches
at concrete inputs. -/
theorem createImageStore_error_mapping_witness :
    (CreateImageStore (fun _ => .error (.exist "there")) "st" =
      .conflict "An image store with that name already exists") ∧
    (CreateImageStore (fun _ => .ok sampleURLDs) "st" = .created sampleURLDs.render) ∧
    (CreateImageStore (fun _ => .error (.other "bad")) "st" = .defaultErr 500 "bad") :=
  ⟨(createImageStore_error_mapping (fun _ => .error (.exist "there")) "st").1
      (.exist "there") rfl rfl,
   (createImageStore_error_mapping (fun _ => .ok sampleURLDs) "st").2.1
      sampleURLDs rfl,
   (createImageStore_error_mapping (fun _ => .error (.other "bad")) "st").2.2
      (.other "bad") rfl rfl⟩

/-- Claim C8: `GetVolume` turns exactly the sentinel `os.ErrNotExist`
into the 404 response; under any other error from `VolumeGet` it
behaves as if there were no error, proceeding to `fillVolumeModel` on
the (possibly nil) volume — in particular, a nil volume with a
non-sentinel error (e.g. a wrapped not-exist error) reaches the nil
dereference. -/
theorem getVolume_sentinel_only
    (volumeStoreName : URL → Except Err String) (data : Option Volume) (e : Err) :
    GetVolume volumeStoreName (data, some Err.errNotExistSentinel) =
      .notFound Err.errNotExistSentinel.message ∧
    (e ≠ Err.errNotExistSentinel →
      GetVolume volumeStoreName (data, some e) = GetVolume volumeStoreName (data, none)) ∧
    (e ≠ Err.errNotExistSentinel →
      GetVolume volumeStoreName (none, some e) = .nilDeref) ∧
    (∀ oe m, GetVolume volumeStoreName (data, oe) = .notFound m →
      oe = some Err.errNotExistSentinel) := by
  refine ⟨by simp [GetVolume], fun hne => ?_, fun hne => ?_, fun oe m hnf => ?_⟩
  · simp [GetVolume, hne]
  · simp [GetVolume, hne, fillVolumeModel]
  · by_cases hs : oe = some Err.errNotExistSentinel
    · exact hs
    · exfalso
      simp only [GetVolume, hs, if_neg] at hnf
      cases hfm : fillVolumeModel volumeStoreName data with
      | none => simp [hfm] at hnf
      | some r =>
        cases r with
        | error e' => simp [hfm] at hnf
        | ok resp => simp [hfm] at hnf

/-- Witness for C8: the sentinel gives 404; the wrapped not-exist
error `notExist` does not, and with a nil volume it reaches the nil
dereference. -/
theorem getVolume_sentinel_only_witness :
    (GetVolume (fun _ => .ok "store1") (some sampleVolumeDs, some Err.errNotExistSentinel) =
      .notFound Err.errNotExistSentinel.message) ∧
    (GetVolume (fun _ => .ok "store1") (some sampleVolumeDs, some (.notExist "wrapped")) =
      GetVolume (fun _ => .ok "store1") (some sampleVolumeDs, none)) ∧
    (GetVolume (fun _ => .ok "store1") (none, some (.notExist "wrapped")) = .nilDeref) :=
  ⟨(getVolume_sentinel_only (fun _ => .ok "store1") (some sampleVolumeDs)
      (.notExist "wrapped")).1,
   (getVolume_sentinel_only (fun _ => .ok "store1") (some sampleVolumeDs)
      (.notExist "wrapped")).2.1 (fun h => Err.noConfusion h),
   (getVolume_sentinel_only (fun _ => .ok "store1") none
      (.notExist "wrapped")).2.2.1 (fun h => Err.noConfusion h)⟩

/-- Claim C9: the capacity `CreateVolume` passes to `VolumeCreate` is
the requested capacity times 1024 (in `uint64` arithmetic) when the
request is non-negative — exactly `c * 1024` whenever that product
fits in 64 bits — and `1024 * 1024` when the request is negative; the
value passed is always a multiple of 1024, never the raw request.  The
last conjunct observes the passed value through a recording cache. -/
theorem createVolume_capacity_scaled (c : Int) :
    (0 ≤ c → createVolumeCapacityArg c = c.toNat * 1024 % 2 ^ 64) ∧
    (0 ≤ c → c * 1024 < 2 ^ 64 → createVolumeCapacityArg c = c.toNat * 1024) ∧
    (c < 0 → createVolumeCapacityArg c = 1024 * 1024) ∧
    1024 ∣ createVolumeCapacityArg c ∧
    (∀ (volumeStoreNameToURL : String → Except Err URL) (req : VolumeRequest) (u : URL),
      volumeStoreNameToURL req.Store = .ok u → req.Capacity = c →
      CreateVolume volumeStoreNameToURL
          (fun _ _ cap _ => .error (.other (toString cap))) req =
        .internalError (toString (createVolumeCapacityArg c))) := by
  refine ⟨fun h => ?_, fun h hlt => ?_, fun h => ?_, ?_, fun f req u hu hc => ?_⟩
  · simp [createVolumeCapacityArg, not_lt.mpr h]
  · have hlt' : c.toNat * 1024 < 2 ^ 64 := by
      zify [Int.toNat_of_nonneg h]
      exact hlt
    simp only [createVolumeCapacityArg, if_neg (not_lt.mpr h)]
    exact Nat.mod_eq_of_lt hlt'
  · simp [createVolumeCapacityArg, h]
  · simp only [createVolumeCapacityArg]
    exact (Nat.dvd_mod_iff ⟨2 ^ 54, by norm_num⟩).mpr (dvd_mul_left 1024 _)
  · simp [CreateVolume, hu, hc, Err.isExist, Err.isVolumeStoreNotFound, Err.message]

/-- Witness for C9 at capacities 5 and -3 (and through the recording
cache at the sample request, whose capacity is 5). -/
theorem createVolume_capacity_scaled_witness :
    createVolumeCapacityArg 5 = (5 : Int).toNat * 1024 ∧
    createVolumeCapacityArg (-3) = 1024 * 1024 ∧
    CreateVolume (fun _ => .ok sampleURLDs)
        (fun _ _ cap _ => .error (.other (toString cap))) sampleRequest =
      .internalError (toString (createVolumeCapacityArg 5)) :=
  ⟨(createVolume_capacity_scaled 5).2.1 (by norm_num) (by norm_num),
   (createVolume_capacity_scaled (-3)).2.2.1 (by norm_num),
   (createVolume_capacity_scaled 5).2.2.2.2 (fun _ => .ok sampleURLDs)
      sampleRequest sampleURLDs rfl rfl⟩

/-- Claim C10: the metadata map `WriteImage` passes to the image cache
is the one-entry map of the supplied key and value when both are
present, is nil when either is absent, and never has more than one
entry; the last conjunct observes the passed map through a recording
cache. -/
theorem writeImage_meta_singleton
    (k v : String) (metadatakey metadataval : Option String) :
    writeImageMeta (some k) (some v) = some [(k, v)] ∧
    (metadatakey = none ∨ metadataval = none →
      writeImageMeta metadatakey metadataval = none) ∧
    (∀ m, writeImageMeta metadatakey metadataval = some m → m.length = 1) ∧
    (∀ (imageStoreNameToURL : String → Except Err URL) (u : URL)
        (storeName parentID imageID sum : String),
      imageStoreNameToURL storeName = .ok u →
      WriteImage imageStoreNameToURL
          (fun _ _ meta _ => .error (.other (renderMeta meta)))
          storeName parentID imageID metadatakey metadataval sum =
        .defaultErr 500 (renderMeta (writeImageMeta metadatakey metadataval))) := by
  refine ⟨rfl, fun h => ?_, fun m hm => ?_, fun f u sn pid iid sum hu => ?_⟩
  · rcases h with h | h <;> cases metadatakey <;> cases metadataval <;>
      simp_all [writeImageMeta]
  · cases metadatakey with
    | none => simp [writeImageMeta] at hm
    | some k0 =>
      cases metadataval with
      | none => simp [writeImageMeta] at hm
      | some v0 =>
        simp only [writeImageMeta, Option.some.injEq] at hm
        subst hm
        rfl
  · simp [WriteImage, hu, Err.message]

/-- Witness for C10: both parameters present gives the singleton map;
a missing value gives nil; the recording cache sees the map the
handler built. -/
theorem writeImage_meta_singleton_witness :
    writeImageMeta (some "k") (some "v") = some [("k", "v")] ∧
    writeImageMeta (some "k") none = none ∧
    WriteImage (fun _ => .ok sampleURLDs)
        (fun _ _ meta _ => .error (.other (renderMeta meta)))
        "store1" "parent" "img1" (some "k") none "sum" =
      .defaultErr 500 (renderMeta (writeImageMeta (some "k") none)) :=
  ⟨(writeImage_meta_singleton "k" "v" (some "k") none).1,
   (writeImage_meta_singleton "k" "v" (some "k") none).2.1 (Or.inr rfl),
   (writeImage_meta_singleton "k" "v" (some "k") none).2.2.2
      (fun _ => .ok sampleURLDs) sampleURLDs "store1" "parent" "img1" "sum" rfl⟩

end StorageHandlers
